import Mathlib

/-!
Verification of the gapii `Spy` interception layer (gapii/cc/spy.h).

The symbol-table operations (`RegisterSymbol`, `LookupSymbol`) are the only
methods implemented inline in the header; they are embedded directly from
that source.  The remaining components (fake GL error shimming, framebuffer
observation, capture lifecycle, precompiled-shader suppression) are declared
in the header but implemented elsewhere; those are modelled from the
specification, as marked on each definition.

Conventions of the embedding:
* `void*` function pointers are modelled as `Nat`, with `0` playing the role
  of `nullptr`.
* `std::unordered_map` contents are modelled as association lists; the first
  entry with a matching key is the map entry (later entries with the same key
  are shadowed, mirroring that a map holds one entry per key).
-/

namespace Gapii

/-- Association-list lookup used to model `std::unordered_map::find`:
returns the value of the first entry whose key matches, or `none`. -/
def findSymbol : List (String × Nat) → String → Option Nat
  | [], _ => none
  | e :: rest, name => if e.1 = name then some e.2 else findSymbol rest name

/-- The contents of `Spy::mSymbols : std::unordered_map<std::string, void*>`. -/
structure SymbolTable where
  entries : List (String × Nat)
deriving DecidableEq

namespace Spy

/-- Embedding of `Spy::RegisterSymbol(name, symbol)`, whose body is
`mSymbols.emplace(name, symbol);`.  `std::unordered_map::emplace` inserts the
pair only when no entry with that key exists; when the key is already present
it leaves the map unchanged. -/
def RegisterSymbol (t : SymbolTable) (name : String) (symbol : Nat) : SymbolTable :=
  match findSymbol t.entries name with
  | some _ => t
  | none => ⟨(name, symbol) :: t.entries⟩

/-- Embedding of `Spy::LookupSymbol(name)`, whose body finds `name` in
`mSymbols` and returns `nullptr` (here `0`) when it is absent, the stored
pointer otherwise. -/
def LookupSymbol (t : SymbolTable) (name : String) : Nat :=
  match findSymbol t.entries name with
  | some p => p
  | none => 0

/-- Embedding of the `const` method `Spy::LookupSymbol` as an explicit state
transformer: the method only calls `find` on the (const) map and returns a
value, so the post-state is the table it was given. -/
def LookupSymbolSt (t : SymbolTable) (name : String) : Nat × SymbolTable :=
  (LookupSymbol t name, t)

end Spy

/-- Association-list lookup on `Nat` keys, modelling
`std::unordered_map<ContextID, GLenum_Error>::find`. -/
def findKey : List (Nat × Nat) → Nat → Option Nat
  | [], _ => none
  | e :: rest, k => if e.1 = k then some e.2 else findKey rest k

/-- Removal of every entry with the given key, modelling
`std::unordered_map::erase(key)`. -/
def eraseKey (m : List (Nat × Nat)) (k : Nat) : List (Nat × Nat) :=
  m.filter (fun e => e.1 ≠ k)

/-- Key-replacing insertion, modelling `map[key] = value` on
`std::unordered_map`: the map afterwards holds exactly one entry for `k`. -/
def insertKey (m : List (Nat × Nat)) (k v : Nat) : List (Nat × Nat) :=
  (k, v) :: eraseKey m k

/-- The contents of `Spy::mFakeGlError : std::unordered_map<ContextID,
GLenum_Error>`; context identifiers and error enums are modelled as `Nat`. -/
structure FakeErrorState where
  fakeGlError : List (Nat × Nat)
deriving DecidableEq

namespace Spy

/-- Modelled from the spec: the implementation of `Spy::setFakeGlError` is not
in the source tree (spy.h only declares it).  Per the spec, it installs a
synthetic error for a given context in the fake-error map. -/
def setFakeGlError (s : FakeErrorState) (ctx err : Nat) : FakeErrorState :=
  ⟨insertKey s.fakeGlError ctx err⟩

/-- Modelled from the spec: the implementation of the intercepted
`Spy::glGetError` is not in the source tree (spy.h only declares it).  Per the
spec, when a fake error is installed for the requesting context it is
returned instead of querying the real driver and the entry is cleared
(one-shot); otherwise the real driver error state (`driverError`, supplied by
the environment) is returned and the map is untouched. -/
def glGetError (s : FakeErrorState) (ctx : Nat) (driverError : Nat) :
    Nat × FakeErrorState :=
  match findKey s.fakeGlError ctx with
  | some e => (e, ⟨eraseKey s.fakeGlError ctx⟩)
  | none => (driverError, s)

end Spy

/-- A framebuffer observation atom (`atom_pb::FramebufferObservation`):
the queried color-buffer dimensions plus the read-back pixel data. -/
structure FramebufferObservation where
  width : Nat
  height : Nat
  data : Nat
deriving DecidableEq

/-- A unit of the output trace reaching the encoder: either a framebuffer
observation atom or a recorded call. -/
inductive FbRecord where
  | obs (o : FramebufferObservation)
  | call (c : Nat)
deriving DecidableEq

/-- The dispatcher-owned observation state: the single
`Spy::mPendingFramebufferObservation` slot (a `unique_ptr`, hence at most
one), and the stream of records already handed to the encoder. -/
structure FbState where
  pendingFramebufferObservation : Option FramebufferObservation
  encoded : List FbRecord
deriving DecidableEq

namespace Spy

/-- Modelled from the spec: the implementation of `Spy::observeFramebuffer`
is not in the source tree (spy.h only declares it and documents the
`pendMessaging` contract).  `attachment` is the result of
`getFramebufferAttachmentSize`: `none` when the bound render target's
dimensions could not be retrieved, in which case the sample is skipped
without error; `pixels` is the read-back pixel data.  With
`pendMessaging = false` the observation atom is encoded immediately; with
`pendMessaging = true` it is stored as the single pending observation, and a
conflict with an already-pending observation is resolved deterministically by
flush-then-replace (the policy the spec's error-handling section names). -/
def observeFramebuffer (s : FbState) (attachment : Option (Nat × Nat))
    (pixels : Nat) (pendMessaging : Bool) : FbState :=
  match attachment with
  | none => s
  | some (w, h) =>
    let o : FramebufferObservation := ⟨w, h, pixels⟩
    if pendMessaging then
      match s.pendingFramebufferObservation with
      | none => { s with pendingFramebufferObservation := some o }
      | some prev =>
        { pendingFramebufferObservation := some o,
          encoded := s.encoded ++ [FbRecord.obs prev] }
    else
      { s with encoded := s.encoded ++ [FbRecord.obs o] }

/-- Modelled from the spec: the record-emission path is not in the source
tree.  Per the spec, the pending observation is attached to the next outgoing
record — emitting a call record encodes (and clears) the pending observation
along with the call. -/
def emitRecord (s : FbState) (c : Nat) : FbState :=
  { pendingFramebufferObservation := none,
    encoded := s.encoded ++ s.pendingFramebufferObservation.toList.map FbRecord.obs
      ++ [FbRecord.call c] }

end Spy

/-- An operation on the observation state: a framebuffer snapshot attempt
(with the environment-supplied attachment-size result and pixel data), or the
emission of an outgoing call record. -/
inductive FbOp where
  | observe (attachment : Option (Nat × Nat)) (pixels : Nat) (pendMessaging : Bool)
  | emit (c : Nat)

/-- One step of the observation state machine. -/
def FbState.step (s : FbState) : FbOp → FbState
  | FbOp.observe attachment pixels pend => Spy.observeFramebuffer s attachment pixels pend
  | FbOp.emit c => Spy.emitRecord s c

/-- Runs a sequence of observation/emission operations. -/
def FbState.run (s : FbState) : List FbOp → FbState
  | [] => s
  | op :: ops => (s.step op).run ops

/-- Whether a trace record is a framebuffer observation atom. -/
def FbRecord.isObs : FbRecord → Bool
  | obs _ => true
  | call _ => false

/-- The number of observation snapshots accounted for in a state: atoms
already encoded plus the pending one (if any). -/
def FbState.obsCount (s : FbState) : Nat :=
  (s.encoded.filter FbRecord.isObs).length +
    s.pendingFramebufferObservation.toList.length

/-- The number of snapshots successfully captured by a sequence of
operations (observe operations whose attachment query succeeded). -/
def capturedObs : List FbOp → Nat
  | [] => 0
  | FbOp.observe (some _) _ _ :: ops => capturedObs ops + 1
  | FbOp.observe none _ _ :: ops => capturedObs ops
  | FbOp.emit _ :: ops => capturedObs ops

/-- A unit of the capture-session output trace: a frame-boundary record or a
recorded intercepted call. -/
inductive SessionRecord where
  | frame (n : Nat)
  | call (c : Nat)
deriving DecidableEq

/-- The capture-session counters of the `Spy` (`mNumFrames`,
`mSuspendCaptureFrames`, `mCaptureFrames`) together with the record stream
already handed to the encoder. -/
structure SessionState where
  mNumFrames : Nat
  mSuspendCaptureFrames : Nat
  mCaptureFrames : Nat
  encoded : List SessionRecord
deriving DecidableEq

namespace SessionState

/-- Modelled from the spec: capture is active iff the suspend countdown has
reached zero and the frames already captured are strictly fewer than the
configured total frames to capture. -/
def captureActive (s : SessionState) : Bool :=
  s.mSuspendCaptureFrames == 0 && s.mNumFrames < s.mCaptureFrames

/-- Modelled from the spec: the bodies of the intercepted entry points are
not in the source tree.  Per the spec's dispatcher contract, an intercepted
call is forwarded with no recording when the session is inactive (cheap
path), and its record is handed to the encoder when active. -/
def interceptCall (s : SessionState) (c : Nat) : SessionState :=
  if s.captureActive then { s with encoded := s.encoded ++ [SessionRecord.call c] }
  else s

/-- Modelled from the spec: the frame-boundary hooks (`onPostEndOfFrame` and
the deferred-start countdown) are not in the source tree.  Per the spec,
while suspended each frame boundary decrements the countdown and produces no
record; once the countdown has elapsed, each frame boundary is recorded and
counted until the configured total has been captured, after which nothing
further is recorded. -/
def frameBoundary (s : SessionState) : SessionState :=
  if 0 < s.mSuspendCaptureFrames then
    { s with mSuspendCaptureFrames := s.mSuspendCaptureFrames - 1 }
  else if s.mNumFrames < s.mCaptureFrames then
    { s with
      mNumFrames := s.mNumFrames + 1,
      encoded := s.encoded ++ [SessionRecord.frame s.mNumFrames] }
  else s

end SessionState

/-- An operation on the capture session: an intercepted (non-boundary) call
or a frame boundary. -/
inductive SessionOp where
  | call (c : Nat)
  | frame

/-- One step of the capture-session state machine. -/
def SessionState.step (s : SessionState) : SessionOp → SessionState
  | SessionOp.call c => s.interceptCall c
  | SessionOp.frame => s.frameBoundary

/-- Runs a sequence of session operations. -/
def SessionState.run (s : SessionState) : List SessionOp → SessionState
  | [] => s
  | op :: ops => (s.step op).run ops

/-- Runs `k` consecutive frame boundaries. -/
def SessionState.runFrames (s : SessionState) : Nat → SessionState
  | 0 => s
  | k + 1 => s.frameBoundary.runFrames k

/-- The session state at singleton construction: no frames captured yet, no
records encoded, with the configured `suspendCaptureFrames` countdown and
`captureFrames` total. -/
def initSession (suspendCaptureFrames captureFrames : Nat) : SessionState :=
  ⟨0, suspendCaptureFrames, captureFrames, []⟩

/-- One of the three intercepted precompiled-binary GLES calls declared in
spy.h (`glProgramBinary`, `glProgramBinaryOES`, `glShaderBinary`); pointer
and enum arguments are modelled as `Nat`. -/
inductive GlesCall where
  | programBinary (program binaryFormat binary binarySize : Nat)
  | programBinaryOES (program binaryFormat binary binarySize : Nat)
  | shaderBinary (count : Nat) (shaders : List Nat) (binaryFormat binary binarySize : Nat)
deriving DecidableEq

/-- The state relevant to precompiled-binary suppression: the
`Spy::mDisablePrecompiledShaders` flag, the recorded trace, and the sequence
of calls whose effect actually reached the live driver. -/
structure GlesState where
  mDisablePrecompiledShaders : Bool
  trace : List GlesCall
  driver : List GlesCall
deriving DecidableEq

namespace Spy

/-- Modelled from the spec: the bodies of the three precompiled-binary
interceptors are not in the source tree (spy.h declares them and documents
that they optionally fake no support for precompiled shaders).  Per the spec,
the call is always recorded in the trace; its effect is forwarded to the live
driver only when `mDisablePrecompiledShaders` is false, and suppressed
(no-op / synthetic failure) otherwise. -/
def interceptPrecompiled (s : GlesState) (c : GlesCall) : GlesState :=
  { s with
    trace := s.trace ++ [c],
    driver := if s.mDisablePrecompiledShaders then s.driver else s.driver ++ [c] }

/-- Embedding of the intercepted `Spy::glProgramBinary` via
`interceptPrecompiled`. -/
def glProgramBinary (s : GlesState) (program binaryFormat binary binarySize : Nat) :
    GlesState :=
  interceptPrecompiled s (GlesCall.programBinary program binaryFormat binary binarySize)

/-- Embedding of the intercepted `Spy::glProgramBinaryOES` via
`interceptPrecompiled`. -/
def glProgramBinaryOES (s : GlesState) (program binaryFormat binary binarySize : Nat) :
    GlesState :=
  interceptPrecompiled s (GlesCall.programBinaryOES program binaryFormat binary binarySize)

/-- Embedding of the intercepted `Spy::glShaderBinary` via
`interceptPrecompiled`. -/
def glShaderBinary (s : GlesState) (count : Nat) (shaders : List Nat)
    (binaryFormat binary binarySize : Nat) : GlesState :=
  interceptPrecompiled s (GlesCall.shaderBinary count shaders binaryFormat binary binarySize)

end Spy

end Gapii

open Gapii

/-- C1: the claim says re-registration overwrites (last write wins), but
`RegisterSymbol` uses `unordered_map::emplace`, which inserts only when the
key is absent.  At the concrete failing input — a table already mapping
`"glFoo"` to pointer `1` — re-registering `"glFoo"` with pointer `2` and then
looking it up yields the original pointer `1`, not `2`. -/
theorem registerSymbol_reregistration_keeps_first_pointer :
    Spy.LookupSymbol (Spy.RegisterSymbol ⟨[("glFoo", 1)]⟩ "glFoo" 2) "glFoo" = 1 ∧
      (1 : Nat) ≠ 2 := by
  constructor
  · simp [Spy.RegisterSymbol, Spy.LookupSymbol, findSymbol]
  · decide

/-- C6: registering a previously unregistered name and then looking it up
returns the registered pointer, and looking up a name that was never
registered returns the not-found result (`nullptr`, modelled as `0`). -/
theorem registerSymbol_lookupSymbol_roundtrip
    (t : SymbolTable) (name : String) (p : Nat)
    (h : findSymbol t.entries name = none) :
    Spy.LookupSymbol (Spy.RegisterSymbol t name p) name = p ∧
      Spy.LookupSymbol t name = 0 := by
  constructor
  · simp [Spy.RegisterSymbol, h, Spy.LookupSymbol, findSymbol]
  · simp [Spy.LookupSymbol, h]

/-- Witness for C6 at the concrete input: the empty table and name `"glFoo"`
with pointer `7`. -/
theorem registerSymbol_lookupSymbol_roundtrip_witness :
    findSymbol (SymbolTable.mk []).entries "glFoo" = none ∧
      (Spy.LookupSymbol (Spy.RegisterSymbol ⟨[]⟩ "glFoo" 7) "glFoo" = 7 ∧
        Spy.LookupSymbol (⟨[]⟩ : SymbolTable) "glFoo" = 0) :=
  ⟨rfl, registerSymbol_lookupSymbol_roundtrip ⟨[]⟩ "glFoo" 7 rfl⟩

/-- C10: `LookupSymbol` is a pure observation: it is a `const` method that
only calls `find`, so for every table and every name (registered or not) the
post-state is the original table — in particular a failed lookup inserts no
entry for the queried name. -/
theorem lookupSymbol_pure_observation (t : SymbolTable) (name other : String) :
    (Spy.LookupSymbolSt t name).2 = t ∧
      findSymbol (Spy.LookupSymbolSt t name).2.entries other =
        findSymbol t.entries other := by
  exact ⟨rfl, rfl⟩

/-- After erasing a key, looking that key up fails. -/
theorem findKey_eraseKey_self (m : List (Nat × Nat)) (k : Nat) :
    findKey (eraseKey m k) k = none := by
  induction m with
  | nil => rfl
  | cons e rest ih =>
    by_cases h : e.1 = k
    · simpa [eraseKey, List.filter_cons, h] using ih
    · simpa [eraseKey, List.filter_cons, h, findKey] using ih

/-- C3: fake GL errors are one-shot per context: after `setFakeGlError`
installs error `e` for context `ctx`, one `glGetError` on `ctx` returns `e`
and clears the entry, and a second consecutive `glGetError` on the same
context returns the real driver error state, not `e`. -/
theorem fakeGlError_one_shot (s : FakeErrorState) (ctx e d1 d2 : Nat) :
    (Spy.glGetError (Spy.setFakeGlError s ctx e) ctx d1).1 = e ∧
      findKey ((Spy.glGetError (Spy.setFakeGlError s ctx e) ctx d1).2).fakeGlError ctx
        = none ∧
      (Spy.glGetError
        ((Spy.glGetError (Spy.setFakeGlError s ctx e) ctx d1).2) ctx d2).1 = d2 := by
  have h1 : findKey (insertKey s.fakeGlError ctx e) ctx = some e := by
    simp [insertKey, findKey]
  refine ⟨?_, ?_, ?_⟩ <;>
    simp [Spy.setFakeGlError, Spy.glGetError, h1, findKey_eraseKey_self]

/-- Splitting off the head of an operation sequence splits the captured
snapshot count. -/
theorem capturedObs_cons (op : FbOp) (ops : List FbOp) :
    capturedObs (op :: ops) = capturedObs [op] + capturedObs ops := by
  cases op with
  | observe attachment pixels pend =>
    cases attachment with
    | none => simp [capturedObs]
    | some wh =>
      simp [capturedObs]
      omega
  | emit c => simp [capturedObs]

/-- Each step accounts exactly for the snapshots it captures: the number of
observation atoms encoded or pending grows by one on a successful capture
and is otherwise unchanged. -/
theorem obsCount_step (s : FbState) (op : FbOp) :
    (s.step op).obsCount = s.obsCount + capturedObs [op] := by
  cases op with
  | observe attachment pixels pend =>
    cases attachment with
    | none => simp [FbState.step, Spy.observeFramebuffer, capturedObs]
    | some wh =>
      obtain ⟨w, h⟩ := wh
      cases pend with
      | false =>
        simp [FbState.step, Spy.observeFramebuffer, FbState.obsCount, capturedObs,
          List.filter_append, FbRecord.isObs]
        omega
      | true =>
        cases hp : s.pendingFramebufferObservation <;>
          simp [FbState.step, Spy.observeFramebuffer, FbState.obsCount, capturedObs,
            hp, List.filter_append, FbRecord.isObs]
  | emit c =>
    cases hp : s.pendingFramebufferObservation <;>
      simp [FbState.step, Spy.emitRecord, FbState.obsCount, capturedObs, hp,
        List.filter_append, FbRecord.isObs]

/-- Snapshot conservation over a whole run. -/
theorem run_obsCount (s : FbState) (ops : List FbOp) :
    (s.run ops).obsCount = s.obsCount + capturedObs ops := by
  induction ops generalizing s with
  | nil => simp [FbState.run, capturedObs]
  | cons op ops ih =>
    rw [FbState.run, ih, obsCount_step, capturedObs_cons op ops]
    omega

/-- C2: at most one pending framebuffer observation exists at any instant,
and no sequence of observe/emit operations silently loses a snapshot: every
successfully captured observation is either already encoded or currently
pending (the previous pending observation is flushed when a new deferred
snapshot arrives). -/
theorem pending_observation_no_loss (s : FbState) (ops : List FbOp) :
    (s.run ops).pendingFramebufferObservation.toList.length ≤ 1 ∧
      (s.run ops).obsCount = s.obsCount + capturedObs ops := by
  refine ⟨?_, run_obsCount s ops⟩
  cases h : (s.run ops).pendingFramebufferObservation <;> simp [h]

/-- C7: two-mode behavior of `observeFramebuffer` on a successful capture:
with `pendMessaging = true` the new observation is not encoded — it becomes
the single pending observation (any previously pending one being flushed);
with `pendMessaging = false` the observation is encoded immediately and the
pending slot is untouched. -/
theorem observeFramebuffer_two_modes (s : FbState) (w h pixels : Nat) :
    Spy.observeFramebuffer s (some (w, h)) pixels true =
      { pendingFramebufferObservation := some ⟨w, h, pixels⟩,
        encoded := s.encoded ++
          s.pendingFramebufferObservation.toList.map FbRecord.obs } ∧
      Spy.observeFramebuffer s (some (w, h)) pixels false =
        { s with encoded := s.encoded ++ [FbRecord.obs ⟨w, h, pixels⟩] } := by
  constructor
  · cases hp : s.pendingFramebufferObservation <;>
      simp [Spy.observeFramebuffer, hp]
  · rfl

/-- C8: framebuffer unavailability is non-fatal: when the bound render
target's dimensions cannot be retrieved (`getFramebufferAttachmentSize`
returned false, i.e. `attachment = none`), `observeFramebuffer` records no
observation and returns with the state unchanged. -/
theorem observeFramebuffer_unavailable_non_fatal
    (s : FbState) (pixels : Nat) (pendMessaging : Bool) :
    Spy.observeFramebuffer s none pixels pendMessaging = s := rfl

/-- Running `k` frame boundaries encodes `min (k - countdown) (remaining
frame budget)` records: the suspended boundaries produce nothing, then one
record per boundary until the configured total is captured. -/
theorem runFrames_encoded_length (k : Nat) : ∀ s : SessionState,
    (s.runFrames k).encoded.length =
      s.encoded.length +
        min (k - s.mSuspendCaptureFrames) (s.mCaptureFrames - s.mNumFrames) := by
  induction k with
  | zero => intro s; simp [SessionState.runFrames]
  | succ k ih =>
    intro s
    rw [SessionState.runFrames, ih]
    unfold SessionState.frameBoundary
    by_cases h1 : 0 < s.mSuspendCaptureFrames
    · rw [if_pos h1]
      simp only
      omega
    · rw [if_neg h1]
      by_cases h2 : s.mNumFrames < s.mCaptureFrames
      · rw [if_pos h2]
        simp only [List.length_append, List.length_cons, List.length_nil]
        omega
      · rw [if_neg h2]
        omega

/-- C4: capture lifecycle ordering: while the session is suspended (positive
suspend countdown) neither an intercepted call nor a frame boundary hands a
record to the encoder; and starting with `suspendCaptureFrames = 2`, after
`k` frame boundaries exactly `min (k - 2) captureFrames` records have been
encoded — the first two boundaries produce none, the third and onward one
each until `captureFrames` frames are captured, then no more. -/
theorem capture_lifecycle_ordering :
    (∀ (s : SessionState) (c : Nat), 0 < s.mSuspendCaptureFrames →
        (s.interceptCall c).encoded = s.encoded ∧
          s.frameBoundary.encoded = s.encoded) ∧
      ∀ captureFrames k : Nat,
        ((initSession 2 captureFrames).runFrames k).encoded.length =
          min (k - 2) captureFrames := by
  constructor
  · intro s c h
    have hfalse : ¬s.captureActive = true := by
      simp only [SessionState.captureActive, Bool.and_eq_true, beq_iff_eq,
        decide_eq_true_eq, not_and]
      omega
    constructor
    · simp only [SessionState.interceptCall]
      rw [if_neg hfalse]
    · simp only [SessionState.frameBoundary]
      rw [if_pos h]
  · intro captureFrames k
    rw [runFrames_encoded_length]
    simp [initSession]

/-- Witness for C4 at the concrete session state with countdown 2, frame
budget 3 and an empty encoded stream, on intercepted call 5. -/
theorem capture_lifecycle_ordering_witness :
    0 < (⟨0, 2, 3, []⟩ : SessionState).mSuspendCaptureFrames ∧
      ((SessionState.interceptCall ⟨0, 2, 3, []⟩ 5).encoded =
          (⟨0, 2, 3, []⟩ : SessionState).encoded ∧
        (SessionState.frameBoundary ⟨0, 2, 3, []⟩).encoded =
          (⟨0, 2, 3, []⟩ : SessionState).encoded) :=
  ⟨by decide, capture_lifecycle_ordering.1 ⟨0, 2, 3, []⟩ 5 (by decide)⟩

/-- Once the configured total has been captured, no operation sequence adds
records: the finished session is terminal for the encoder stream. -/
theorem run_finished_encoded (ops : List SessionOp) : ∀ s : SessionState,
    s.mCaptureFrames ≤ s.mNumFrames → (s.run ops).encoded = s.encoded := by
  induction ops with
  | nil => intro s _; rfl
  | cons op ops ih =>
    intro s h
    cases op with
    | call c =>
      have hfalse : ¬s.captureActive = true := by
        simp only [SessionState.captureActive, Bool.and_eq_true, beq_iff_eq,
          decide_eq_true_eq, not_and]
        omega
      simp only [SessionState.run, SessionState.step, SessionState.interceptCall]
      rw [if_neg hfalse]
      exact ih s h
    | frame =>
      simp only [SessionState.run, SessionState.step, SessionState.frameBoundary]
      by_cases hs : 0 < s.mSuspendCaptureFrames
      · rw [if_pos hs]
        exact ih _ h
      · rw [if_neg hs, if_neg (by omega)]
        exact ih s h

/-- C5: session-activity invariant: the suspend countdown never increases
under any operation; an intercepted call or a frame boundary hands a record
to the encoder exactly when capture is active, i.e. exactly when the
countdown has reached zero and frames captured are strictly below the
configured total; and once the total is reached, no operation sequence ever
encodes another record. -/
theorem session_activity_invariant :
    (∀ (s : SessionState) (op : SessionOp),
        (s.step op).mSuspendCaptureFrames ≤ s.mSuspendCaptureFrames) ∧
      (∀ (s : SessionState) (c : Nat),
        (s.interceptCall c).encoded =
          s.encoded ++ if s.captureActive then [SessionRecord.call c] else []) ∧
      (∀ s : SessionState,
        s.frameBoundary.encoded =
          s.encoded ++
            if s.captureActive then [SessionRecord.frame s.mNumFrames] else []) ∧
      ∀ (s : SessionState) (ops : List SessionOp),
        s.mCaptureFrames ≤ s.mNumFrames → (s.run ops).encoded = s.encoded := by
  refine ⟨?_, ?_, ?_, fun s ops h => run_finished_encoded ops s h⟩
  · intro s op
    cases op with
    | call c =>
      simp only [SessionState.step, SessionState.interceptCall]
      split <;> simp
    | frame =>
      simp only [SessionState.step, SessionState.frameBoundary]
      split
      · simp only
        omega
      · split <;> simp
  · intro s c
    simp only [SessionState.interceptCall]
    by_cases h : s.captureActive = true
    · rw [if_pos h, if_pos h]
    · rw [if_neg h, if_neg h, List.append_nil]
  · intro s
    simp only [SessionState.frameBoundary]
    by_cases h1 : 0 < s.mSuspendCaptureFrames
    · have hfalse : ¬s.captureActive = true := by
        simp only [SessionState.captureActive, Bool.and_eq_true, beq_iff_eq,
          decide_eq_true_eq, not_and]
        omega
      rw [if_pos h1, if_neg hfalse, List.append_nil]
    · by_cases h2 : s.mNumFrames < s.mCaptureFrames
      · have htrue : s.captureActive = true := by
          simp only [SessionState.captureActive, Bool.and_eq_true, beq_iff_eq,
            decide_eq_true_eq]
          omega
        rw [if_neg h1, if_pos h2, if_pos htrue]
      · have hfalse : ¬s.captureActive = true := by
          simp only [SessionState.captureActive, Bool.and_eq_true, beq_iff_eq,
            decide_eq_true_eq, not_and]
          omega
        rw [if_neg h1, if_neg h2, if_neg hfalse, List.append_nil]

/-- Witness for C5 at the concrete finished session (2 of 2 frames captured,
countdown elapsed) under a frame boundary followed by intercepted call 1. -/
theorem session_activity_invariant_witness :
    (⟨2, 0, 2, []⟩ : SessionState).mCaptureFrames ≤
        (⟨2, 0, 2, []⟩ : SessionState).mNumFrames ∧
      (SessionState.run ⟨2, 0, 2, []⟩ [SessionOp.frame, SessionOp.call 1]).encoded =
        (⟨2, 0, 2, []⟩ : SessionState).encoded :=
  ⟨by decide,
    session_activity_invariant.2.2.2 ⟨2, 0, 2, []⟩
      [SessionOp.frame, SessionOp.call 1] (by decide)⟩

/-- C9: precompiled-binary suppression alters only the driver effect: with
`mDisablePrecompiledShaders = true`, each of `glProgramBinary`,
`glProgramBinaryOES` and `glShaderBinary` still appends its call record to
the trace, while the live driver receives no effect from it. -/
theorem precompiled_binary_suppression (s : GlesState)
    (program binaryFormat binary binarySize count : Nat) (shaders : List Nat)
    (h : s.mDisablePrecompiledShaders = true) :
    ((Spy.glProgramBinary s program binaryFormat binary binarySize).trace =
        s.trace ++ [GlesCall.programBinary program binaryFormat binary binarySize] ∧
      (Spy.glProgramBinary s program binaryFormat binary binarySize).driver =
        s.driver) ∧
      ((Spy.glProgramBinaryOES s program binaryFormat binary binarySize).trace =
          s.trace ++
            [GlesCall.programBinaryOES program binaryFormat binary binarySize] ∧
        (Spy.glProgramBinaryOES s program binaryFormat binary binarySize).driver =
          s.driver) ∧
      (Spy.glShaderBinary s count shaders binaryFormat binary binarySize).trace =
          s.trace ++
            [GlesCall.shaderBinary count shaders binaryFormat binary binarySize] ∧
        (Spy.glShaderBinary s count shaders binaryFormat binary binarySize).driver =
          s.driver := by
  refine ⟨⟨rfl, ?_⟩, ⟨rfl, ?_⟩, rfl, ?_⟩ <;>
    simp [Spy.glProgramBinary, Spy.glProgramBinaryOES, Spy.glShaderBinary,
      Spy.interceptPrecompiled, h]

/-- Witness for C9 at the concrete state with suppression enabled and empty
trace and driver streams. -/
theorem precompiled_binary_suppression_witness :
    (⟨true, [], []⟩ : GlesState).mDisablePrecompiledShaders = true ∧
      (((Spy.glProgramBinary ⟨true, [], []⟩ 1 2 3 4).trace =
          (⟨true, [], []⟩ : GlesState).trace ++ [GlesCall.programBinary 1 2 3 4] ∧
        (Spy.glProgramBinary ⟨true, [], []⟩ 1 2 3 4).driver =
          (⟨true, [], []⟩ : GlesState).driver) ∧
      ((Spy.glProgramBinaryOES ⟨true, [], []⟩ 1 2 3 4).trace =
          (⟨true, [], []⟩ : GlesState).trace ++ [GlesCall.programBinaryOES 1 2 3 4] ∧
        (Spy.glProgramBinaryOES ⟨true, [], []⟩ 1 2 3 4).driver =
          (⟨true, [], []⟩ : GlesState).driver) ∧
      (Spy.glShaderBinary ⟨true, [], []⟩ 1 [9] 2 3 4).trace =
          (⟨true, [], []⟩ : GlesState).trace ++ [GlesCall.shaderBinary 1 [9] 2 3 4] ∧
        (Spy.glShaderBinary ⟨true, [], []⟩ 1 [9] 2 3 4).driver =
          (⟨true, [], []⟩ : GlesState).driver) :=
  ⟨rfl, precompiled_binary_suppression ⟨true, [], []⟩ 1 2 3 4 1 [9] rfl⟩
